import Mathlib

set_option autoImplicit false
set_option maxRecDepth 8000

namespace Sendgrid

/-! Shallow embedding of the sendgrid-rs crate: the value-node structs
(`Message`, `Personalization`, `MailSettings`, `TrackingSettings`, `Contact`,
`Content`, `Attachment`, `Asm` and the sub-setting structs), their builders,
and the serde_json serialization that `Message::to_json` performs.  Structs and
builder methods are translated field-for-field from the Rust source; the serde
derive semantics (field order, `skip_serializing_if`, `rename`, `Option`
as-null) are reproduced per attribute. -/

/-- JSON document model, the target of serde serialization. -/
inductive Json where
  | str (s : String)
  | num (n : Int)
  | bool (b : Bool)
  | null
  | arr (xs : List Json)
  | obj (fields : List (String × Json))

/-- Hexadecimal digit character, matching serde_json's lower-case unicode escapes. -/
def hexDigit (n : Nat) : Char :=
  if n < 10 then Char.ofNat (48 + n) else Char.ofNat (87 + n)

/-- Escape one character exactly the way serde_json's string serializer does. -/
def escapeChar (c : Char) : String :=
  if c = '"' then "\\\""
  else if c = '\\' then "\\\\"
  else if c = '\x08' then "\\b"
  else if c = '\t' then "\\t"
  else if c = '\n' then "\\n"
  else if c = '\x0c' then "\\f"
  else if c = '\r' then "\\r"
  else if c.toNat < 32 then
    "\\u00" ++ String.singleton (hexDigit (c.toNat / 16)) ++ String.singleton (hexDigit (c.toNat % 16))
  else String.singleton c

/-- Escape a whole string for inclusion in JSON output. -/
def escapeString (s : String) : String :=
  String.join (s.toList.map escapeChar)

mutual

/-- Render a JSON value to compact text the way serde_json's to_string does. -/
def Json.render : Json → String
  | .str s => "\"" ++ escapeString s ++ "\""
  | .num n => toString n
  | .bool b => if b then "true" else "false"
  | .null => "null"
  | .arr xs => "[" ++ Json.renderArr xs ++ "]"
  | .obj fs => "\x7b" ++ Json.renderFields fs ++ "\x7d"

/-- Render the comma-separated elements of a JSON array. -/
def Json.renderArr : List Json → String
  | [] => ""
  | [x] => Json.render x
  | x :: y :: xs => Json.render x ++ "," ++ Json.renderArr (y :: xs)

/-- Render the comma-separated key/value members of a JSON object. -/
def Json.renderFields : List (String × Json) → String
  | [] => ""
  | [(k, v)] => "\"" ++ escapeString k ++ "\":" ++ Json.render v
  | (k, v) :: f :: fs =>
      "\"" ++ escapeString k ++ "\":" ++ Json.render v ++ "," ++ Json.renderFields (f :: fs)

end

/-- Keys of a JSON object (empty for non-objects). -/
def Json.objKeys : Json → List String
  | .obj fs => fs.map Prod.fst
  | _ => []

/-- Members of a JSON object (empty for non-objects). -/
def Json.objFields : Json → List (String × Json)
  | .obj fs => fs
  | _ => []

/-- Functional model of Rust's HashMap<String, String>: an association list whose
entries are the map's key/value pairs. -/
abbrev StrMap := List (String × String)

/-- Model of HashMap::insert as used by the builder methods: an existing key has
its value replaced, a new key is added. -/
def mapInsert (m : StrMap) (k v : String) : StrMap :=
  if m.any (fun p => p.1 == k) then
    m.map (fun p => if p.1 == k then (k, v) else p)
  else m ++ [(k, v)]

/-- Serde serialization of an Option field without skip_serializing_if: an absent
value is emitted as JSON null. -/
def optNull (o : Option Json) : Json := o.getD Json.null

/-- Serde field with skip_serializing_if Option::is_none: omitted when absent. -/
def skipNone (k : String) (o : Option Json) : List (String × Json) :=
  match o with
  | none => []
  | some j => [(k, j)]

/-- Serde field with skip_serializing_if Vec::is_empty: omitted when empty. -/
def skipEmptyList (k : String) (xs : List Json) : List (String × Json) :=
  match xs with
  | [] => []
  | _ => [(k, Json.arr xs)]

/-- Serialize the entries of a HashMap<String, String> as a JSON object, in the
order the entry list supplies. -/
def mapJson (m : StrMap) : Json := Json.obj (m.map (fun p => (p.1, Json.str p.2)))

/-- Serde field with skip_serializing_if HashMap::is_empty: omitted when the map has
no entries; otherwise its entries are emitted in the map's iteration order, which is
given by the parameter ord (std HashMap iteration order is per-instance). -/
def skipEmptyMap (k : String) (ord : StrMap → StrMap) (m : StrMap) : List (String × Json) :=
  match m with
  | [] => []
  | _ => [(k, mapJson (ord m))]

/-- Contact value node (src/lib.rs): email plus optional display name. -/
structure Contact where
  email : String
  name : Option String
deriving DecidableEq

/-- Serde derive for Contact: both fields always emitted, name as null when absent. -/
def Contact.toJson (c : Contact) : Json :=
  Json.obj [("email", Json.str c.email), ("name", optNull (c.name.map Json.str))]

/-- Content value node (src/lib.rs): the c_type field carries serde rename "type". -/
structure Content where
  c_type : String
  value : String
deriving DecidableEq

/-- Content::new constructor. -/
def Content.new (c_type value : String) : Content :=
  { c_type := c_type, value := value }

/-- Serde derive for Content: c_type is emitted under the key "type". -/
def Content.toJson (c : Content) : Json :=
  Json.obj [("type", Json.str c.c_type), ("value", Json.str c.value)]

/-- Attachment value node (src/attachment.rs): the a_type field carries serde
rename "type"; no field has skip_serializing_if, so absent options emit null. -/
structure Attachment where
  content : String
  a_type : Option String
  filename : String
  disposition : Option String
  content_id : Option String
deriving DecidableEq

/-- Serde derive for Attachment, in declaration order, a_type renamed to "type". -/
def Attachment.toJson (a : Attachment) : Json :=
  Json.obj [("content", Json.str a.content),
    ("type", optNull (a.a_type.map Json.str)),
    ("filename", Json.str a.filename),
    ("disposition", optNull (a.disposition.map Json.str)),
    ("content_id", optNull (a.content_id.map Json.str))]

/-- Asm value node (src/lib.rs): subscription group id plus display groups. -/
structure Asm where
  group_id : Int
  groups_to_display : List Int
deriving DecidableEq

/-- Serde derive for Asm: both fields always emitted. -/
def Asm.toJson (a : Asm) : Json :=
  Json.obj [("group_id", Json.num a.group_id),
    ("groups_to_display", Json.arr (a.groups_to_display.map Json.num))]

/-- BccSetting (src/mail_settings.rs). -/
structure BccSetting where
  enable : Bool
  email : String
deriving DecidableEq

/-- Serde derive for BccSetting. -/
def BccSetting.toJson (s : BccSetting) : Json :=
  Json.obj [("enable", Json.bool s.enable), ("email", Json.str s.email)]

/-- BypassListSetting (src/mail_settings.rs). -/
structure BypassListSetting where
  enable : Bool
deriving DecidableEq

/-- Serde derive for BypassListSetting. -/
def BypassListSetting.toJson (s : BypassListSetting) : Json :=
  Json.obj [("enable", Json.bool s.enable)]

/-- FooterSetting (src/mail_settings.rs): no skip attributes, options emit null. -/
structure FooterSetting where
  enable : Bool
  text : Option String
  html : Option String
deriving DecidableEq

/-- Serde derive for FooterSetting. -/
def FooterSetting.toJson (s : FooterSetting) : Json :=
  Json.obj [("enable", Json.bool s.enable),
    ("text", optNull (s.text.map Json.str)),
    ("html", optNull (s.html.map Json.str))]

/-- SandboxModeSetting (src/mail_settings.rs). -/
structure SandboxModeSetting where
  enable : Bool
deriving DecidableEq

/-- Serde derive for SandboxModeSetting. -/
def SandboxModeSetting.toJson (s : SandboxModeSetting) : Json :=
  Json.obj [("enable", Json.bool s.enable)]

/-- SpamCheckSetting (src/mail_settings.rs): no skip attributes, options emit null. -/
structure SpamCheckSetting where
  enable : Bool
  threshold : Option Int
  post_to_url : Option String
deriving DecidableEq

/-- Serde derive for SpamCheckSetting. -/
def SpamCheckSetting.toJson (s : SpamCheckSetting) : Json :=
  Json.obj [("enable", Json.bool s.enable),
    ("threshold", optNull (s.threshold.map Json.num)),
    ("post_to_url", optNull (s.post_to_url.map Json.str))]

/-- MailSettings value node (src/mail_settings.rs): five optional sub-settings,
none carrying skip_serializing_if, so absent sub-settings are emitted as null. -/
structure MailSettings where
  bcc : Option BccSetting
  bypass_list_management : Option BypassListSetting
  footer : Option FooterSetting
  sandbox_mode : Option SandboxModeSetting
  spam_check : Option SpamCheckSetting
deriving DecidableEq

/-- Default::default for MailSettings: every sub-setting absent. -/
def MailSettings.defaultValue : MailSettings :=
  { bcc := none, bypass_list_management := none, footer := none,
    sandbox_mode := none, spam_check := none }

/-- Serde derive for MailSettings: all five keys always present, null when absent. -/
def MailSettings.toJson (m : MailSettings) : Json :=
  Json.obj [("bcc", optNull (m.bcc.map BccSetting.toJson)),
    ("bypass_list_management", optNull (m.bypass_list_management.map BypassListSetting.toJson)),
    ("footer", optNull (m.footer.map FooterSetting.toJson)),
    ("sandbox_mode", optNull (m.sandbox_mode.map SandboxModeSetting.toJson)),
    ("spam_check", optNull (m.spam_check.map SpamCheckSetting.toJson))]

/-- ClickTrackingSetting (src/tracking_settings.rs). -/
structure ClickTrackingSetting where
  enable : Bool
  enable_text : Bool
deriving DecidableEq

/-- Serde derive for ClickTrackingSetting. -/
def ClickTrackingSetting.toJson (s : ClickTrackingSetting) : Json :=
  Json.obj [("enable", Json.bool s.enable), ("enable_text", Json.bool s.enable_text)]

/-- OpenTrackingSetting (src/tracking_settings.rs). -/
structure OpenTrackingSetting where
  enable : Bool
  substitution_tag : String
deriving DecidableEq

/-- Serde derive for OpenTrackingSetting. -/
def OpenTrackingSetting.toJson (s : OpenTrackingSetting) : Json :=
  Json.obj [("enable", Json.bool s.enable),
    ("substitution_tag", Json.str s.substitution_tag)]

/-- SubscriptionTrackingSetting (src/tracking_settings.rs): field order is enable,
text, html, substitution_tag; options emit null. -/
structure SubscriptionTrackingSetting where
  enable : Bool
  text : Option String
  html : Option String
  substitution_tag : String
deriving DecidableEq

/-- Serde derive for SubscriptionTrackingSetting. -/
def SubscriptionTrackingSetting.toJson (s : SubscriptionTrackingSetting) : Json :=
  Json.obj [("enable", Json.bool s.enable),
    ("text", optNull (s.text.map Json.str)),
    ("html", optNull (s.html.map Json.str)),
    ("substitution_tag", Json.str s.substitution_tag)]

/-- GaTrackingSetting (src/tracking_settings.rs): options emit null. -/
structure GaTrackingSetting where
  enable : Bool
  utm_source : Option String
  utm_medium : Option String
  utm_term : Option String
  utm_content : Option String
  utm_campaign : Option String
deriving DecidableEq

/-- Default for GaTrackingSetting (impl Default in the source): enable starts true. -/
def GaTrackingSetting.defaultValue : GaTrackingSetting :=
  { enable := true, utm_source := none, utm_medium := none, utm_term := none,
    utm_content := none, utm_campaign := none }

/-- Serde derive for GaTrackingSetting. -/
def GaTrackingSetting.toJson (s : GaTrackingSetting) : Json :=
  Json.obj [("enable", Json.bool s.enable),
    ("utm_source", optNull (s.utm_source.map Json.str)),
    ("utm_medium", optNull (s.utm_medium.map Json.str)),
    ("utm_term", optNull (s.utm_term.map Json.str)),
    ("utm_content", optNull (s.utm_content.map Json.str)),
    ("utm_campaign", optNull (s.utm_campaign.map Json.str))]

/-- TrackingSettings value node (src/tracking_settings.rs): four optional
sub-settings, none carrying skip_serializing_if, so absent ones emit null. -/
structure TrackingSettings where
  click_tracking : Option ClickTrackingSetting
  open_tracking : Option OpenTrackingSetting
  subscription_tracking : Option SubscriptionTrackingSetting
  ganalytics : Option GaTrackingSetting
deriving DecidableEq

/-- Default::default for TrackingSettings: every sub-setting absent. -/
def TrackingSettings.defaultValue : TrackingSettings :=
  { click_tracking := none, open_tracking := none, subscription_tracking := none,
    ganalytics := none }

/-- Serde derive for TrackingSettings: all four keys always present, null when absent. -/
def TrackingSettings.toJson (t : TrackingSettings) : Json :=
  Json.obj [("click_tracking", optNull (t.click_tracking.map ClickTrackingSetting.toJson)),
    ("open_tracking", optNull (t.open_tracking.map OpenTrackingSetting.toJson)),
    ("subscription_tracking",
      optNull (t.subscription_tracking.map SubscriptionTrackingSetting.toJson)),
    ("ganalytics", optNull (t.ganalytics.map GaTrackingSetting.toJson))]

/-- Personalization value node (src/personalization.rs): every field carries a
skip_serializing_if attribute. -/
structure Personalization where
  to_ : List Contact
  cc : List Contact
  bcc : List Contact
  subject : Option String
  headers : StrMap
  substitutions : StrMap
  dynamic_template_data : StrMap
  custom_args : StrMap
  send_at : Option Int
deriving DecidableEq

/-- Default::default for Personalization: everything empty or absent. -/
def Personalization.defaultValue : Personalization :=
  { to_ := [], cc := [], bcc := [], subject := none, headers := [],
    substitutions := [], dynamic_template_data := [], custom_args := [], send_at := none }

/-- Serde derive for Personalization, parameterized by the iteration order ord of its
HashMap fields; every field is skipped when empty or absent. -/
def Personalization.toJsonWith (ord : StrMap → StrMap) (p : Personalization) : Json :=
  Json.obj (
    skipEmptyList "to" (p.to_.map Contact.toJson)
    ++ skipEmptyList "cc" (p.cc.map Contact.toJson)
    ++ skipEmptyList "bcc" (p.bcc.map Contact.toJson)
    ++ skipNone "subject" (p.subject.map Json.str)
    ++ skipEmptyMap "headers" ord p.headers
    ++ skipEmptyMap "substitutions" ord p.substitutions
    ++ skipEmptyMap "dynamic_template_data" ord p.dynamic_template_data
    ++ skipEmptyMap "custom_args" ord p.custom_args
    ++ skipNone "send_at" (p.send_at.map Json.num))

/-- Serde derive for Personalization with the map iteration order fixed to insertion
order (the deterministic reference order used throughout this development). -/
def Personalization.toJson : Personalization → Json :=
  Personalization.toJsonWith id

/-- Message value node (src/message.rs): the root of the payload graph; every
optional or collection field carries a skip_serializing_if attribute. -/
structure Message where
  personalizations : List Personalization
  from_ : Contact
  reply_to : Option Contact
  subject : String
  content : List Content
  attachments : List Attachment
  template_id : Option String
  sections : StrMap
  headers : StrMap
  categories : List String
  custom_args : StrMap
  send_at : Option Int
  batch_id : Option String
  asm : Option Asm
  ip_pool_name : Option String
  mail_settings : Option MailSettings
  tracking_settings : Option TrackingSettings
deriving DecidableEq

/-- Serde derive for Message in declaration order, parameterized by the HashMap
iteration order ord; optional and empty collection fields are skipped. -/
def Message.toJsonWith (ord : StrMap → StrMap) (m : Message) : Json :=
  Json.obj (
    skipEmptyList "personalizations" (m.personalizations.map (Personalization.toJsonWith ord))
    ++ [("from", Contact.toJson m.from_)]
    ++ skipNone "reply_to" (m.reply_to.map Contact.toJson)
    ++ [("subject", Json.str m.subject)]
    ++ skipEmptyList "content" (m.content.map Content.toJson)
    ++ skipEmptyList "attachments" (m.attachments.map Attachment.toJson)
    ++ skipNone "template_id" (m.template_id.map Json.str)
    ++ skipEmptyMap "sections" ord m.sections
    ++ skipEmptyMap "headers" ord m.headers
    ++ skipEmptyList "categories" (m.categories.map Json.str)
    ++ skipEmptyMap "custom_args" ord m.custom_args
    ++ skipNone "send_at" (m.send_at.map Json.num)
    ++ skipNone "batch_id" (m.batch_id.map Json.str)
    ++ skipNone "asm" (m.asm.map Asm.toJson)
    ++ skipNone "ip_pool_name" (m.ip_pool_name.map Json.str)
    ++ skipNone "mail_settings" (m.mail_settings.map MailSettings.toJson)
    ++ skipNone "tracking_settings" (m.tracking_settings.map TrackingSettings.toJson))

/-- Serde derive for Message with the map iteration order fixed to insertion order. -/
def Message.toJson : Message → Json :=
  Message.toJsonWith id

/-- Result of serde_json::to_string on a Message under map iteration order ord.  For
the derived Serialize impls of this crate the serializer has no failure source: every
map key is a string, no impl returns an error, and Rust strings are always valid
UTF-8, so the model always succeeds with the rendered text. -/
def serdeToString (ord : StrMap → StrMap) (m : Message) : Except String String :=
  Except.ok (Json.render (Message.toJsonWith ord m))

/-- A value that is either a normal result or a Rust panic carrying a message. -/
inductive PanicOr (α : Type) where
  | panicked (msg : String)
  | ok (val : α)
deriving DecidableEq

/-- Model of Result::expect(msg): the value on Ok, a panic with msg on Err. -/
def expectOr {α : Type} (msg : String) : Except String α → PanicOr α
  | .ok a => PanicOr.ok a
  | .error _ => PanicOr.panicked msg

/-- Message::to_json under map iteration order ord: serde_json::to_string followed by
expect with the crate's panic message. -/
def Message.to_jsonWith (ord : StrMap → StrMap) (m : Message) : PanicOr String :=
  expectOr "could not properly serialize into JSON" (serdeToString ord m)

/-- Message::to_json with the insertion-order reference iteration order. -/
def Message.to_json (m : Message) : PanicOr String :=
  Message.to_jsonWith id m

/-- ContactBuilder (src/lib.rs): wraps the Contact under construction. -/
structure ContactBuilder where
  contact : Contact

/-- ContactBuilder::new: email is the only required parameter, name starts absent. -/
def ContactBuilder.new (email : String) : ContactBuilder :=
  { contact := { email := email, name := none } }

/-- ContactBuilder::name: sets the optional display name. -/
def ContactBuilder.name (b : ContactBuilder) (name : String) : ContactBuilder :=
  { contact := { b.contact with name := some name } }

/-- ContactBuilder::build: consumes the builder, returns the Contact. -/
def ContactBuilder.build (b : ContactBuilder) : Contact :=
  b.contact

/-- AsmBuilder (src/lib.rs). -/
structure AsmBuilder where
  asm : Asm

/-- AsmBuilder::new: group_id is the only required parameter. -/
def AsmBuilder.new (group_id : Int) : AsmBuilder :=
  { asm := { group_id := group_id, groups_to_display := [] } }

/-- AsmBuilder::group_to_display: appends one display group. -/
def AsmBuilder.group_to_display (b : AsmBuilder) (group : Int) : AsmBuilder :=
  { asm := { b.asm with groups_to_display := b.asm.groups_to_display ++ [group] } }

/-- AsmBuilder::build. -/
def AsmBuilder.build (b : AsmBuilder) : Asm :=
  b.asm

/-- AttachmentBuilder (src/attachment.rs). -/
structure AttachmentBuilder where
  attachment : Attachment

/-- AttachmentBuilder::new: content and filename are required, the rest start absent. -/
def AttachmentBuilder.new (content filename : String) : AttachmentBuilder :=
  { attachment :=
      { content := content, a_type := none, filename := filename,
        disposition := none, content_id := none } }

/-- AttachmentBuilder::attachment_type: sets the mime type. -/
def AttachmentBuilder.attachment_type (b : AttachmentBuilder) (t : String) : AttachmentBuilder :=
  { attachment := { b.attachment with a_type := some t } }

/-- AttachmentBuilder::disposition. -/
def AttachmentBuilder.disposition (b : AttachmentBuilder) (d : String) : AttachmentBuilder :=
  { attachment := { b.attachment with disposition := some d } }

/-- AttachmentBuilder::content_id. -/
def AttachmentBuilder.content_id (b : AttachmentBuilder) (i : String) : AttachmentBuilder :=
  { attachment := { b.attachment with content_id := some i } }

/-- AttachmentBuilder::build. -/
def AttachmentBuilder.build (b : AttachmentBuilder) : Attachment :=
  b.attachment

/-- MailSettingsBuilder (src/mail_settings.rs). -/
structure MailSettingsBuilder where
  settings : MailSettings

/-- MailSettingsBuilder::default. -/
def MailSettingsBuilder.defaultValue : MailSettingsBuilder :=
  { settings := MailSettings.defaultValue }

/-- MailSettingsBuilder::bcc: stores the BCC sub-setting with enable hardcoded true. -/
def MailSettingsBuilder.bcc (b : MailSettingsBuilder) (email : String) : MailSettingsBuilder :=
  { settings := { b.settings with bcc := some { enable := true, email := email } } }

/-- MailSettingsBuilder::bypass_list_management: enable hardcoded true. -/
def MailSettingsBuilder.bypass_list_management (b : MailSettingsBuilder) : MailSettingsBuilder :=
  { settings := { b.settings with bypass_list_management := some { enable := true } } }

/-- MailSettingsBuilder::footer: enable hardcoded true, text and html forwarded. -/
def MailSettingsBuilder.footer (b : MailSettingsBuilder) (text html : Option String) :
    MailSettingsBuilder :=
  { settings := { b.settings with footer := some { enable := true, text := text, html := html } } }

/-- MailSettingsBuilder::sandbox_mode: enable hardcoded true. -/
def MailSettingsBuilder.sandbox_mode (b : MailSettingsBuilder) : MailSettingsBuilder :=
  { settings := { b.settings with sandbox_mode := some { enable := true } } }

/-- MailSettingsBuilder::spam_check: enable hardcoded true, parameters forwarded. -/
def MailSettingsBuilder.spam_check (b : MailSettingsBuilder) (threshold : Option Int)
    (post_to_url : Option String) : MailSettingsBuilder :=
  { settings := { b.settings with
      spam_check := some { enable := true, threshold := threshold, post_to_url := post_to_url } } }

/-- MailSettingsBuilder::build. -/
def MailSettingsBuilder.build (b : MailSettingsBuilder) : MailSettings :=
  b.settings

/-- GaTrackingSettingBuilder (src/tracking_settings.rs). -/
structure GaTrackingSettingBuilder where
  setting : GaTrackingSetting

/-- GaTrackingSettingBuilder::default: the underlying setting starts with enable true. -/
def GaTrackingSettingBuilder.defaultValue : GaTrackingSettingBuilder :=
  { setting := GaTrackingSetting.defaultValue }

/-- GaTrackingSettingBuilder::utm_source. -/
def GaTrackingSettingBuilder.utm_source (b : GaTrackingSettingBuilder) (source : String) :
    GaTrackingSettingBuilder :=
  { setting := { b.setting with utm_source := some source } }

/-- GaTrackingSettingBuilder::utm_medium. -/
def GaTrackingSettingBuilder.utm_medium (b : GaTrackingSettingBuilder) (medium : String) :
    GaTrackingSettingBuilder :=
  { setting := { b.setting with utm_medium := some medium } }

/-- GaTrackingSettingBuilder::utm_term. -/
def GaTrackingSettingBuilder.utm_term (b : GaTrackingSettingBuilder) (term : String) :
    GaTrackingSettingBuilder :=
  { setting := { b.setting with utm_term := some term } }

/-- GaTrackingSettingBuilder::utm_content. -/
def GaTrackingSettingBuilder.utm_content (b : GaTrackingSettingBuilder) (content : String) :
    GaTrackingSettingBuilder :=
  { setting := { b.setting with utm_content := some content } }

/-- GaTrackingSettingBuilder::utm_campaign. -/
def GaTrackingSettingBuilder.utm_campaign (b : GaTrackingSettingBuilder) (campaign : String) :
    GaTrackingSettingBuilder :=
  { setting := { b.setting with utm_campaign := some campaign } }

/-- GaTrackingSettingBuilder::build. -/
def GaTrackingSettingBuilder.build (b : GaTrackingSettingBuilder) : GaTrackingSetting :=
  b.setting

/-- TrackingSettingsBuilder (src/tracking_settings.rs). -/
structure TrackingSettingsBuilder where
  settings : TrackingSettings

/-- TrackingSettingsBuilder::default. -/
def TrackingSettingsBuilder.defaultValue : TrackingSettingsBuilder :=
  { settings := TrackingSettings.defaultValue }

/-- TrackingSettingsBuilder::click_tracking: enable hardcoded true, enable_text forwarded. -/
def TrackingSettingsBuilder.click_tracking (b : TrackingSettingsBuilder) (enable_text : Bool) :
    TrackingSettingsBuilder :=
  { settings := { b.settings with
      click_tracking := some { enable := true, enable_text := enable_text } } }

/-- TrackingSettingsBuilder::open_tracking: enable hardcoded true, tag forwarded. -/
def TrackingSettingsBuilder.open_tracking (b : TrackingSettingsBuilder)
    (substitution_tag : String) : TrackingSettingsBuilder :=
  { settings := { b.settings with
      open_tracking := some { enable := true, substitution_tag := substitution_tag } } }

/-- TrackingSettingsBuilder::substitution_tag: stores the subscription_tracking
sub-setting with enable hardcoded true. -/
def TrackingSettingsBuilder.substitution_tag (b : TrackingSettingsBuilder)
    (substitution_tag : String) (text html : Option String) : TrackingSettingsBuilder :=
  { settings := { b.settings with
      subscription_tracking :=
        some { enable := true, substitution_tag := substitution_tag,
               text := text, html := html } } }

/-- TrackingSettingsBuilder::build. -/
def TrackingSettingsBuilder.build (b : TrackingSettingsBuilder) : TrackingSettings :=
  b.settings

/-- PersonalizationBuilder (src/personalization.rs). -/
structure PersonalizationBuilder where
  personalization : Personalization

/-- PersonalizationBuilder::default. -/
def PersonalizationBuilder.defaultValue : PersonalizationBuilder :=
  { personalization := Personalization.defaultValue }

/-- PersonalizationBuilder::to: appends one To contact. -/
def PersonalizationBuilder.to_ (b : PersonalizationBuilder) (contact : Contact) :
    PersonalizationBuilder :=
  { personalization := { b.personalization with to_ := b.personalization.to_ ++ [contact] } }

/-- PersonalizationBuilder::cc: appends one CC contact. -/
def PersonalizationBuilder.cc (b : PersonalizationBuilder) (contact : Contact) :
    PersonalizationBuilder :=
  { personalization := { b.personalization with cc := b.personalization.cc ++ [contact] } }

/-- PersonalizationBuilder::bcc: appends one BCC contact. -/
def PersonalizationBuilder.bcc (b : PersonalizationBuilder) (contact : Contact) :
    PersonalizationBuilder :=
  { personalization := { b.personalization with bcc := b.personalization.bcc ++ [contact] } }

/-- PersonalizationBuilder::subject. -/
def PersonalizationBuilder.subject (b : PersonalizationBuilder) (subject : String) :
    PersonalizationBuilder :=
  { personalization := { b.personalization with subject := some subject } }

/-- PersonalizationBuilder::header: inserts one header key. -/
def PersonalizationBuilder.header (b : PersonalizationBuilder) (key value : String) :
    PersonalizationBuilder :=
  { personalization := { b.personalization with
      headers := mapInsert b.personalization.headers key value } }

/-- PersonalizationBuilder::headers: overwrites the whole headers map with data. -/
def PersonalizationBuilder.headers (b : PersonalizationBuilder) (data : StrMap) :
    PersonalizationBuilder :=
  { personalization := { b.personalization with headers := data } }

/-- PersonalizationBuilder::substitution: inserts one substitution key. -/
def PersonalizationBuilder.substitution (b : PersonalizationBuilder) (key value : String) :
    PersonalizationBuilder :=
  { personalization := { b.personalization with
      substitutions := mapInsert b.personalization.substitutions key value } }

/-- PersonalizationBuilder::dynamic_template_datum: inserts one template data key. -/
def PersonalizationBuilder.dynamic_template_datum (b : PersonalizationBuilder)
    (key value : String) : PersonalizationBuilder :=
  { personalization := { b.personalization with
      dynamic_template_data := mapInsert b.personalization.dynamic_template_data key value } }

/-- PersonalizationBuilder::dynamic_template_data: overwrites the whole map with data. -/
def PersonalizationBuilder.dynamic_template_data (b : PersonalizationBuilder) (data : StrMap) :
    PersonalizationBuilder :=
  { personalization := { b.personalization with dynamic_template_data := data } }

/-- PersonalizationBuilder::custom_arg: inserts one custom arg key. -/
def PersonalizationBuilder.custom_arg (b : PersonalizationBuilder) (key value : String) :
    PersonalizationBuilder :=
  { personalization := { b.personalization with
      custom_args := mapInsert b.personalization.custom_args key value } }

/-- PersonalizationBuilder::send_at. -/
def PersonalizationBuilder.send_at (b : PersonalizationBuilder) (time : Int) :
    PersonalizationBuilder :=
  { personalization := { b.personalization with send_at := some time } }

/-- PersonalizationBuilder::build. -/
def PersonalizationBuilder.build (b : PersonalizationBuilder) : Personalization :=
  b.personalization

/-- MessageBuilder (src/message.rs). -/
structure MessageBuilder where
  message : Message

/-- MessageBuilder::new: from and subject are required, everything else starts
empty or absent. -/
def MessageBuilder.new (from_ : Contact) (subject : String) : MessageBuilder :=
  { message :=
      { personalizations := [], from_ := from_, reply_to := none,
        subject := subject, content := [], attachments := [], template_id := none,
        sections := [], headers := [], categories := [], custom_args := [],
        send_at := none, batch_id := none, asm := none, ip_pool_name := none,
        mail_settings := none, tracking_settings := none } }

/-- MessageBuilder::personalization: appends one Personalization. -/
def MessageBuilder.personalization (b : MessageBuilder) (per : Personalization) :
    MessageBuilder :=
  { message := { b.message with
      personalizations := b.message.personalizations ++ [per] } }

/-- MessageBuilder::personalizations: overwrites the personalization list with data. -/
def MessageBuilder.personalizations (b : MessageBuilder) (data : List Personalization) :
    MessageBuilder :=
  { message := { b.message with personalizations := data } }

/-- MessageBuilder::reply_to. -/
def MessageBuilder.reply_to (b : MessageBuilder) (contact : Contact) : MessageBuilder :=
  { message := { b.message with reply_to := some contact } }

/-- MessageBuilder::content: appends one Content block. -/
def MessageBuilder.content (b : MessageBuilder) (content : Content) : MessageBuilder :=
  { message := { b.message with content := b.message.content ++ [content] } }

/-- MessageBuilder::attachment: appends one Attachment. -/
def MessageBuilder.attachment (b : MessageBuilder) (attachment : Attachment) : MessageBuilder :=
  { message := { b.message with attachments := b.message.attachments ++ [attachment] } }

/-- MessageBuilder::template_id. -/
def MessageBuilder.template_id (b : MessageBuilder) (id : String) : MessageBuilder :=
  { message := { b.message with template_id := some id } }

/-- MessageBuilder::section: inserts one section key. -/
def MessageBuilder.section_ (b : MessageBuilder) (key value : String) : MessageBuilder :=
  { message := { b.message with sections := mapInsert b.message.sections key value } }

/-- MessageBuilder::header: inserts one header key. -/
def MessageBuilder.header (b : MessageBuilder) (key value : String) : MessageBuilder :=
  { message := { b.message with headers := mapInsert b.message.headers key value } }

/-- MessageBuilder::category: appends one category string. -/
def MessageBuilder.category (b : MessageBuilder) (category : String) : MessageBuilder :=
  { message := { b.message with categories := b.message.categories ++ [category] } }

/-- MessageBuilder::custom_arg: inserts one custom arg key. -/
def MessageBuilder.custom_arg (b : MessageBuilder) (key value : String) : MessageBuilder :=
  { message := { b.message with custom_args := mapInsert b.message.custom_args key value } }

/-- MessageBuilder::send_at. -/
def MessageBuilder.send_at (b : MessageBuilder) (time : Int) : MessageBuilder :=
  { message := { b.message with send_at := some time } }

/-- MessageBuilder::batch_id. -/
def MessageBuilder.batch_id (b : MessageBuilder) (id : String) : MessageBuilder :=
  { message := { b.message with batch_id := some id } }

/-- MessageBuilder::asm. -/
def MessageBuilder.asm (b : MessageBuilder) (asm : Asm) : MessageBuilder :=
  { message := { b.message with asm := some asm } }

/-- MessageBuilder::ip_pool_name. -/
def MessageBuilder.ip_pool_name (b : MessageBuilder) (name : String) : MessageBuilder :=
  { message := { b.message with ip_pool_name := some name } }

/-- MessageBuilder::mail_settings. -/
def MessageBuilder.mail_settings (b : MessageBuilder) (settings : MailSettings) :
    MessageBuilder :=
  { message := { b.message with mail_settings := some settings } }

/-- MessageBuilder::tracking_settings. -/
def MessageBuilder.tracking_settings (b : MessageBuilder) (settings : TrackingSettings) :
    MessageBuilder :=
  { message := { b.message with tracking_settings := some settings } }

/-- MessageBuilder::build. -/
def MessageBuilder.build (b : MessageBuilder) : Message :=
  b.message

/-- One configuration call on a MailSettingsBuilder. -/
inductive MailOp where
  | bcc (email : String)
  | bypass_list_management
  | footer (text html : Option String)
  | sandbox_mode
  | spam_check (threshold : Option Int) (post_to_url : Option String)

/-- Dispatch one MailOp to the corresponding MailSettingsBuilder method. -/
def MailSettingsBuilder.applyOp (b : MailSettingsBuilder) : MailOp → MailSettingsBuilder
  | .bcc e => b.bcc e
  | .bypass_list_management => b.bypass_list_management
  | .footer t h => b.footer t h
  | .sandbox_mode => b.sandbox_mode
  | .spam_check t u => b.spam_check t u

/-- Run a whole sequence of MailSettingsBuilder calls starting from default(). -/
def MailSettingsBuilder.run (ops : List MailOp) : MailSettingsBuilder :=
  ops.foldl MailSettingsBuilder.applyOp MailSettingsBuilder.defaultValue

/-- One configuration call on a TrackingSettingsBuilder. -/
inductive TrackOp where
  | click_tracking (enable_text : Bool)
  | open_tracking (substitution_tag : String)
  | substitution_tag (tag : String) (text html : Option String)

/-- Dispatch one TrackOp to the corresponding TrackingSettingsBuilder method. -/
def TrackingSettingsBuilder.applyOp (b : TrackingSettingsBuilder) :
    TrackOp → TrackingSettingsBuilder
  | .click_tracking et => b.click_tracking et
  | .open_tracking tag => b.open_tracking tag
  | .substitution_tag tag t h => b.substitution_tag tag t h

/-- Run a whole sequence of TrackingSettingsBuilder calls starting from default(). -/
def TrackingSettingsBuilder.run (ops : List TrackOp) : TrackingSettingsBuilder :=
  ops.foldl TrackingSettingsBuilder.applyOp TrackingSettingsBuilder.defaultValue

/-- One configuration call on a GaTrackingSettingBuilder. -/
inductive GaOp where
  | utm_source (s : String)
  | utm_medium (s : String)
  | utm_term (s : String)
  | utm_content (s : String)
  | utm_campaign (s : String)

/-- Dispatch one GaOp to the corresponding GaTrackingSettingBuilder method. -/
def GaTrackingSettingBuilder.applyOp (b : GaTrackingSettingBuilder) :
    GaOp → GaTrackingSettingBuilder
  | .utm_source s => b.utm_source s
  | .utm_medium s => b.utm_medium s
  | .utm_term s => b.utm_term s
  | .utm_content s => b.utm_content s
  | .utm_campaign s => b.utm_campaign s

/-- Run a whole sequence of GaTrackingSettingBuilder calls starting from default(). -/
def GaTrackingSettingBuilder.run (ops : List GaOp) : GaTrackingSettingBuilder :=
  ops.foldl GaTrackingSettingBuilder.applyOp GaTrackingSettingBuilder.defaultValue

/-- One configuration call on a MessageBuilder; payload values are the finished
value nodes that the nested builders produce. -/
inductive MsgOp where
  | personalization (p : Personalization)
  | personalizations (ps : List Personalization)
  | reply_to (c : Contact)
  | content (c : Content)
  | attachment (a : Attachment)
  | template_id (s : String)
  | section_ (k v : String)
  | header (k v : String)
  | category (s : String)
  | custom_arg (k v : String)
  | send_at (t : Int)
  | batch_id (s : String)
  | asm (a : Asm)
  | ip_pool_name (s : String)
  | mail_settings (s : MailSettings)
  | tracking_settings (s : TrackingSettings)

/-- Dispatch one MsgOp to the corresponding MessageBuilder method. -/
def MessageBuilder.applyOp (b : MessageBuilder) : MsgOp → MessageBuilder
  | .personalization p => b.personalization p
  | .personalizations ps => b.personalizations ps
  | .reply_to c => b.reply_to c
  | .content c => b.content c
  | .attachment a => b.attachment a
  | .template_id s => b.template_id s
  | .section_ k v => b.section_ k v
  | .header k v => b.header k v
  | .category s => b.category s
  | .custom_arg k v => b.custom_arg k v
  | .send_at t => b.send_at t
  | .batch_id s => b.batch_id s
  | .asm a => b.asm a
  | .ip_pool_name s => b.ip_pool_name s
  | .mail_settings s => b.mail_settings s
  | .tracking_settings s => b.tracking_settings s

/-- Run a whole MessageBuilder call chain: new(from, subject), the listed
configuration calls in order, then build(). -/
def runMessage (from_ : Contact) (subject : String) (ops : List MsgOp) : Message :=
  (ops.foldl MessageBuilder.applyOp (MessageBuilder.new from_ subject)).build

/-- Character-list version of prefix testing, used by the substring search. -/
def listStartsWith : List Char → List Char → Bool
  | _, [] => true
  | [], _ :: _ => false
  | a :: as, b :: bs => a == b && listStartsWith as bs

/-- Character-list substring search. -/
def listContainsSub (hay needle : List Char) : Bool :=
  match hay with
  | [] => listStartsWith [] needle
  | _ :: t => listStartsWith hay needle || listContainsSub t needle

/-- Whether needle occurs contiguously inside hay. -/
def strContains (hay needle : String) : Bool :=
  listContainsSub hay.toList needle.toList

/-- Every sub-setting stored in a MailSettings has its enable flag set. -/
def MailSettings.allEnabled (m : MailSettings) : Prop :=
  (∀ s, m.bcc = some s → s.enable = true)
  ∧ (∀ s, m.bypass_list_management = some s → s.enable = true)
  ∧ (∀ s, m.footer = some s → s.enable = true)
  ∧ (∀ s, m.sandbox_mode = some s → s.enable = true)
  ∧ (∀ s, m.spam_check = some s → s.enable = true)

/-- Every sub-setting stored in a TrackingSettings has its enable flag set. -/
def TrackingSettings.allEnabled (t : TrackingSettings) : Prop :=
  (∀ s, t.click_tracking = some s → s.enable = true)
  ∧ (∀ s, t.open_tracking = some s → s.enable = true)
  ∧ (∀ s, t.subscription_tracking = some s → s.enable = true)
  ∧ (∀ s, t.ganalytics = some s → s.enable = true)

/-- Keys the spec's omission rule predicts for a serialized Message: a key is
present exactly when the field is set or the collection nonempty. -/
def messageExpectedKeys (m : Message) : List String :=
  (if m.personalizations = [] then [] else ["personalizations"])
  ++ ["from"]
  ++ (if m.reply_to.isSome then ["reply_to"] else [])
  ++ ["subject"]
  ++ (if m.content = [] then [] else ["content"])
  ++ (if m.attachments = [] then [] else ["attachments"])
  ++ (if m.template_id.isSome then ["template_id"] else [])
  ++ (if m.sections = [] then [] else ["sections"])
  ++ (if m.headers = [] then [] else ["headers"])
  ++ (if m.categories = [] then [] else ["categories"])
  ++ (if m.custom_args = [] then [] else ["custom_args"])
  ++ (if m.send_at.isSome then ["send_at"] else [])
  ++ (if m.batch_id.isSome then ["batch_id"] else [])
  ++ (if m.asm.isSome then ["asm"] else [])
  ++ (if m.ip_pool_name.isSome then ["ip_pool_name"] else [])
  ++ (if m.mail_settings.isSome then ["mail_settings"] else [])
  ++ (if m.tracking_settings.isSome then ["tracking_settings"] else [])

/-- Keys the spec's omission rule predicts for a serialized Personalization. -/
def personalizationExpectedKeys (p : Personalization) : List String :=
  (if p.to_ = [] then [] else ["to"])
  ++ (if p.cc = [] then [] else ["cc"])
  ++ (if p.bcc = [] then [] else ["bcc"])
  ++ (if p.subject.isSome then ["subject"] else [])
  ++ (if p.headers = [] then [] else ["headers"])
  ++ (if p.substitutions = [] then [] else ["substitutions"])
  ++ (if p.dynamic_template_data = [] then [] else ["dynamic_template_data"])
  ++ (if p.custom_args = [] then [] else ["custom_args"])
  ++ (if p.send_at.isSome then ["send_at"] else [])

theorem objKeys_obj (fs : List (String × Json)) : (Json.obj fs).objKeys = fs.map Prod.fst := rfl

theorem keys_skipNone (k : String) (o : Option Json) :
    (skipNone k o).map Prod.fst = if o.isSome then [k] else [] := by
  cases o <;> rfl

theorem keys_skipEmptyList {α : Type} [DecidableEq α] (k : String) (f : α → Json)
    (xs : List α) :
    (skipEmptyList k (xs.map f)).map Prod.fst = if xs = [] then [] else [k] := by
  cases xs <;> simp [skipEmptyList]

theorem keys_skipEmptyMap (k : String) (ord : StrMap → StrMap) (m : StrMap) :
    (skipEmptyMap k ord m).map Prod.fst = if m = [] then [] else [k] := by
  cases m <;> simp [skipEmptyMap]

theorem message_objKeys (m : Message) :
    Json.objKeys (Message.toJson m) = messageExpectedKeys m := by
  simp [Message.toJson, Message.toJsonWith, Json.objKeys, messageExpectedKeys,
    List.map_append, keys_skipNone, keys_skipEmptyList, keys_skipEmptyMap,
    List.map_eq_nil_iff, Option.isSome_map']

theorem personalization_objKeys (p : Personalization) :
    Json.objKeys (Personalization.toJson p) = personalizationExpectedKeys p := by
  simp [Personalization.toJson, Personalization.toJsonWith, Json.objKeys,
    personalizationExpectedKeys, List.map_append, keys_skipNone, keys_skipEmptyList,
    keys_skipEmptyMap, List.map_eq_nil_iff, Option.isSome_map']

theorem mailSettings_objKeys (ms : MailSettings) :
    Json.objKeys (MailSettings.toJson ms) =
      ["bcc", "bypass_list_management", "footer", "sandbox_mode", "spam_check"] := rfl

theorem trackingSettings_objKeys (ts : TrackingSettings) :
    Json.objKeys (TrackingSettings.toJson ts) =
      ["click_tracking", "open_tracking", "subscription_tracking", "ganalytics"] := rfl

theorem contact_objKeys (c : Contact) :
    Json.objKeys (Contact.toJson c) = ["email", "name"] := rfl

theorem attachment_objKeys (a : Attachment) :
    Json.objKeys (Attachment.toJson a) =
      ["content", "type", "filename", "disposition", "content_id"] := rfl

theorem content_objKeys (c : Content) :
    Json.objKeys (Content.toJson c) = ["type", "value"] := rfl

theorem asm_objKeys (a : Asm) :
    Json.objKeys (Asm.toJson a) = ["group_id", "groups_to_display"] := rfl

set_option maxHeartbeats 1600000 in
/-- Claim C1 (corrected), counterexample to the claim as stated: finalizing a
ContactBuilder with no name call, and a MailSettingsBuilder with no configuration
calls, yields nodes whose absent optional fields ARE serialized — as explicit
nulls — because Contact, MailSettings, TrackingSettings, Attachment and the
sub-setting structs carry no skip_serializing_if attributes in the source. -/
theorem c1_omission_counterexample :
    Json.render (Contact.toJson ((ContactBuilder.new "a@b.c").build))
      = "\x7b\"email\":\"a@b.c\",\"name\":null\x7d"
    ∧ "name" ∈ Json.objKeys (Contact.toJson ((ContactBuilder.new "a@b.c").build))
    ∧ Json.render (MailSettings.toJson (MailSettingsBuilder.defaultValue.build))
      = "\x7b\"bcc\":null,\"bypass_list_management\":null,\"footer\":null,\"sandbox_mode\":null,\"spam_check\":null\x7d" := by
  decide

set_option maxHeartbeats 1600000 in
/-- Claim C1 (corrected, amended): the omission rule — absent optional fields and
empty collections leave no key in the output — holds exactly for Message and
Personalization, whose fields carry skip_serializing_if attributes; for
MailSettings, TrackingSettings, Contact and Attachment every field's key is
always emitted (absent options as null).  In particular a MessageBuilder
finalized with no optional configuration serializes with only the from and
subject keys, and a default PersonalizationBuilder serializes as an empty object. -/
theorem c1_omission_amended :
    (∀ m : Message, Json.objKeys (Message.toJson m) = messageExpectedKeys m)
    ∧ (∀ p : Personalization,
        Json.objKeys (Personalization.toJson p) = personalizationExpectedKeys p)
    ∧ (∀ ms : MailSettings, Json.objKeys (MailSettings.toJson ms)
        = ["bcc", "bypass_list_management", "footer", "sandbox_mode", "spam_check"])
    ∧ (∀ ts : TrackingSettings, Json.objKeys (TrackingSettings.toJson ts)
        = ["click_tracking", "open_tracking", "subscription_tracking", "ganalytics"])
    ∧ (∀ c : Contact, Json.objKeys (Contact.toJson c) = ["email", "name"])
    ∧ (∀ a : Attachment, Json.objKeys (Attachment.toJson a)
        = ["content", "type", "filename", "disposition", "content_id"])
    ∧ (∀ f s, Json.objKeys (Message.toJson ((MessageBuilder.new f s).build))
        = ["from", "subject"])
    ∧ Json.objKeys (Personalization.toJson (PersonalizationBuilder.defaultValue.build)) = [] := by
  refine ⟨message_objKeys, personalization_objKeys, mailSettings_objKeys,
    trackingSettings_objKeys, contact_objKeys, attachment_objKeys, ?_, ?_⟩
  · intro f s
    rw [message_objKeys]
    rfl
  · rw [personalization_objKeys]
    rfl

/-- The Message of the spec's end-to-end scenario, built through the exact builder
chain of the crate's front-page example. -/
def exampleMessage : Message :=
  (((((MessageBuilder.new (((ContactBuilder.new "from@example.com").name "from").build)
      "Subject Line!").template_id "SENDGRID-TEMPLATE-ID").mail_settings
      ((MailSettingsBuilder.defaultValue.sandbox_mode).build)).personalization
      (((PersonalizationBuilder.defaultValue.to_
        (((ContactBuilder.new "to@example.com").name "to").build)).build))).build)

set_option maxHeartbeats 1600000 in
/-- Claim C2 (corrected), counterexample to the claim as stated: the spec's exact
fragment for the mail_settings key does not occur in the serialized output, because
the absent bcc, bypass_list_management, footer and spam_check sub-settings are
emitted as nulls inside the mail_settings object. -/
theorem c2_end_to_end_counterexample :
    strContains (Json.render (Message.toJson exampleMessage))
      "\"mail_settings\":\x7b\"sandbox_mode\":\x7b\"enable\":true\x7d\x7d" = false := by
  decide

set_option maxHeartbeats 1600000 in
/-- Claim C2 (corrected, amended): the end-to-end scenario message serializes to
exactly the text below; it contains the claimed from, subject, personalizations and
template_id fragments, the mail_settings fragment amended to include the null
sub-settings, and none of the twelve unset optional keys. -/
theorem c2_end_to_end_amended :
    Json.render (Message.toJson exampleMessage)
      = "\x7b\"personalizations\":[\x7b\"to\":[\x7b\"email\":\"to@example.com\",\"name\":\"to\"\x7d]\x7d],\"from\":\x7b\"email\":\"from@example.com\",\"name\":\"from\"\x7d,\"subject\":\"Subject Line!\",\"template_id\":\"SENDGRID-TEMPLATE-ID\",\"mail_settings\":\x7b\"bcc\":null,\"bypass_list_management\":null,\"footer\":null,\"sandbox_mode\":\x7b\"enable\":true\x7d,\"spam_check\":null\x7d\x7d"
    ∧ strContains (Json.render (Message.toJson exampleMessage))
        "\"from\":\x7b\"email\":\"from@example.com\",\"name\":\"from\"\x7d" = true
    ∧ strContains (Json.render (Message.toJson exampleMessage))
        "\"subject\":\"Subject Line!\"" = true
    ∧ strContains (Json.render (Message.toJson exampleMessage))
        "\"personalizations\":[\x7b\"to\":[\x7b\"email\":\"to@example.com\",\"name\":\"to\"\x7d]\x7d]" = true
    ∧ strContains (Json.render (Message.toJson exampleMessage))
        "\"template_id\":\"SENDGRID-TEMPLATE-ID\"" = true
    ∧ strContains (Json.render (Message.toJson exampleMessage))
        "\"mail_settings\":\x7b\"bcc\":null,\"bypass_list_management\":null,\"footer\":null,\"sandbox_mode\":\x7b\"enable\":true\x7d,\"spam_check\":null\x7d" = true
    ∧ strContains (Json.render (Message.toJson exampleMessage)) "\"reply_to\"" = false
    ∧ strContains (Json.render (Message.toJson exampleMessage)) "\"content\"" = false
    ∧ strContains (Json.render (Message.toJson exampleMessage)) "\"attachments\"" = false
    ∧ strContains (Json.render (Message.toJson exampleMessage)) "\"sections\"" = false
    ∧ strContains (Json.render (Message.toJson exampleMessage)) "\"headers\"" = false
    ∧ strContains (Json.render (Message.toJson exampleMessage)) "\"categories\"" = false
    ∧ strContains (Json.render (Message.toJson exampleMessage)) "\"custom_args\"" = false
    ∧ strContains (Json.render (Message.toJson exampleMessage)) "\"send_at\"" = false
    ∧ strContains (Json.render (Message.toJson exampleMessage)) "\"batch_id\"" = false
    ∧ strContains (Json.render (Message.toJson exampleMessage)) "\"asm\"" = false
    ∧ strContains (Json.render (Message.toJson exampleMessage)) "\"ip_pool_name\"" = false
    ∧ strContains (Json.render (Message.toJson exampleMessage)) "\"tracking_settings\"" = false := by
  decide

theorem mailDefault_allEnabled : MailSettings.allEnabled MailSettings.defaultValue := by
  refine ⟨?_, ?_, ?_, ?_, ?_⟩ <;> exact fun s hs => Option.noConfusion hs

theorem trackDefault_allEnabled : TrackingSettings.allEnabled TrackingSettings.defaultValue := by
  refine ⟨?_, ?_, ?_, ?_⟩ <;> exact fun s hs => Option.noConfusion hs

theorem mailStep_allEnabled (b : MailSettingsBuilder) (op : MailOp)
    (hb : MailSettings.allEnabled b.settings) :
    MailSettings.allEnabled ((MailSettingsBuilder.applyOp b op).settings) := by
  obtain ⟨h1, h2, h3, h4, h5⟩ := hb
  cases op <;>
    refine ⟨?_, ?_, ?_, ?_, ?_⟩ <;>
    (try exact h1) <;> (try exact h2) <;> (try exact h3) <;>
    (try exact h4) <;> (try exact h5) <;>
    (intro s hs; injection hs with h; subst h; rfl)

theorem trackStep_allEnabled (b : TrackingSettingsBuilder) (op : TrackOp)
    (hb : TrackingSettings.allEnabled b.settings) :
    TrackingSettings.allEnabled ((TrackingSettingsBuilder.applyOp b op).settings) := by
  obtain ⟨h1, h2, h3, h4⟩ := hb
  cases op <;>
    refine ⟨?_, ?_, ?_, ?_⟩ <;>
    (try exact h1) <;> (try exact h2) <;> (try exact h3) <;> (try exact h4) <;>
    (intro s hs; injection hs with h; subst h; rfl)

theorem mailFold_allEnabled (ops : List MailOp) (b : MailSettingsBuilder)
    (hb : MailSettings.allEnabled b.settings) :
    MailSettings.allEnabled ((ops.foldl MailSettingsBuilder.applyOp b).settings) := by
  induction ops generalizing b with
  | nil => exact hb
  | cons op rest ih => exact ih _ (mailStep_allEnabled b op hb)

theorem trackFold_allEnabled (ops : List TrackOp) (b : TrackingSettingsBuilder)
    (hb : TrackingSettings.allEnabled b.settings) :
    TrackingSettings.allEnabled ((ops.foldl TrackingSettingsBuilder.applyOp b).settings) := by
  induction ops generalizing b with
  | nil => exact hb
  | cons op rest ih => exact ih _ (trackStep_allEnabled b op hb)

theorem gaFold_enable (ops : List GaOp) (b : GaTrackingSettingBuilder)
    (hb : b.setting.enable = true) :
    ((ops.foldl GaTrackingSettingBuilder.applyOp b).setting).enable = true := by
  induction ops generalizing b with
  | nil => exact hb
  | cons op rest ih => cases op <;> exact ih _ hb

/-- Claim C3: every on/off sub-setting has a builder method hardcoding enable to
true in the built node (for analytics, GaTrackingSettingBuilder starts enabled and
stays enabled through every method), the serialized node of any enabled sub-setting
carries the member "enable": true, and no sequence of builder calls can produce a
stored sub-setting whose enable flag is false — omitting the call is the only way
to leave a sub-setting absent. -/
theorem c3_enable_flags :
    (∀ b e, (MailSettingsBuilder.bcc b e).settings.bcc = some { enable := true, email := e })
    ∧ (∀ b, (MailSettingsBuilder.bypass_list_management b).settings.bypass_list_management
        = some { enable := true })
    ∧ (∀ b t h, (MailSettingsBuilder.footer b t h).settings.footer
        = some { enable := true, text := t, html := h })
    ∧ (∀ b, (MailSettingsBuilder.sandbox_mode b).settings.sandbox_mode
        = some { enable := true })
    ∧ (∀ b t u, (MailSettingsBuilder.spam_check b t u).settings.spam_check
        = some { enable := true, threshold := t, post_to_url := u })
    ∧ (∀ b et, (TrackingSettingsBuilder.click_tracking b et).settings.click_tracking
        = some { enable := true, enable_text := et })
    ∧ (∀ b tag, (TrackingSettingsBuilder.open_tracking b tag).settings.open_tracking
        = some { enable := true, substitution_tag := tag })
    ∧ (∀ b tag t h, (TrackingSettingsBuilder.substitution_tag b tag t h).settings.subscription_tracking
        = some { enable := true, text := t, html := h, substitution_tag := tag })
    ∧ GaTrackingSettingBuilder.defaultValue.setting.enable = true
    ∧ (∀ gops, ((GaTrackingSettingBuilder.run gops).build).enable = true)
    ∧ (∀ mops, MailSettings.allEnabled ((MailSettingsBuilder.run mops).build))
    ∧ (∀ tops, TrackingSettings.allEnabled ((TrackingSettingsBuilder.run tops).build))
    ∧ (∀ s : BccSetting, s.enable = true →
        ("enable", Json.bool true) ∈ Json.objFields (BccSetting.toJson s))
    ∧ (∀ s : BypassListSetting, s.enable = true →
        ("enable", Json.bool true) ∈ Json.objFields (BypassListSetting.toJson s))
    ∧ (∀ s : FooterSetting, s.enable = true →
        ("enable", Json.bool true) ∈ Json.objFields (FooterSetting.toJson s))
    ∧ (∀ s : SandboxModeSetting, s.enable = true →
        ("enable", Json.bool true) ∈ Json.objFields (SandboxModeSetting.toJson s))
    ∧ (∀ s : SpamCheckSetting, s.enable = true →
        ("enable", Json.bool true) ∈ Json.objFields (SpamCheckSetting.toJson s))
    ∧ (∀ s : ClickTrackingSetting, s.enable = true →
        ("enable", Json.bool true) ∈ Json.objFields (ClickTrackingSetting.toJson s))
    ∧ (∀ s : OpenTrackingSetting, s.enable = true →
        ("enable", Json.bool true) ∈ Json.objFields (OpenTrackingSetting.toJson s))
    ∧ (∀ s : SubscriptionTrackingSetting, s.enable = true →
        ("enable", Json.bool true) ∈ Json.objFields (SubscriptionTrackingSetting.toJson s))
    ∧ (∀ s : GaTrackingSetting, s.enable = true →
        ("enable", Json.bool true) ∈ Json.objFields (GaTrackingSetting.toJson s)) := by
  refine ⟨fun b e => rfl, fun b => rfl, fun b t h => rfl, fun b => rfl, fun b t u => rfl,
    fun b et => rfl, fun b tag => rfl, fun b tag t h => rfl, rfl,
    fun gops => gaFold_enable gops _ rfl,
    fun mops => mailFold_allEnabled mops _ mailDefault_allEnabled,
    fun tops => trackFold_allEnabled tops _ trackDefault_allEnabled,
    ?_, ?_, ?_, ?_, ?_, ?_, ?_, ?_, ?_⟩ <;>
  · intro s hs
    simp [BccSetting.toJson, BypassListSetting.toJson, FooterSetting.toJson,
      SandboxModeSetting.toJson, SpamCheckSetting.toJson, ClickTrackingSetting.toJson,
      OpenTrackingSetting.toJson, SubscriptionTrackingSetting.toJson,
      GaTrackingSetting.toJson, Json.objFields, hs]

/-- Witness for C3 at a concrete input: running the single call sandbox_mode() yields
a stored SandboxModeSetting, the theorem's invariant forces its enable flag true,
and the serialized sub-node carries "enable": true. -/
theorem c3_enable_flags_witness :
    (MailSettingsBuilder.run [MailOp.sandbox_mode]).build.sandbox_mode
        = some { enable := true }
    ∧ ({ enable := true } : SandboxModeSetting).enable = true
    ∧ ("enable", Json.bool true)
        ∈ Json.objFields (SandboxModeSetting.toJson { enable := true }) := by
  refine ⟨rfl, ?_, ?_⟩
  · exact ((c3_enable_flags.2.2.2.2.2.2.2.2.2.2.1) [MailOp.sandbox_mode]).2.2.2.1
      { enable := true } rfl
  · exact (c3_enable_flags.2.2.2.2.2.2.2.2.2.2.2.2.2.2.2.1) { enable := true } rfl

theorem trackFold_ganalytics (ops : List TrackOp) (b : TrackingSettingsBuilder) :
    ((ops.foldl TrackingSettingsBuilder.applyOp b).settings).ganalytics
      = b.settings.ganalytics := by
  induction ops generalizing b with
  | nil => rfl
  | cons op rest ih => cases op <;> exact ih _

/-- Claim C9: no sequence of TrackingSettingsBuilder calls ever sets the ganalytics
field — the builder exposes no method for it — so a built TrackingSettings always
has ganalytics none and a GaTrackingSetting can never be attached through the
public builder API. -/
theorem c9_ganalytics_unreachable :
    ∀ tops : List TrackOp, ((TrackingSettingsBuilder.run tops).build).ganalytics = none :=
  fun tops => trackFold_ganalytics tops TrackingSettingsBuilder.defaultValue

/-- Maps with at most one entry are fixed by any permutation-consistent iteration
order. -/
theorem ord_eq_of_small (ord : StrMap → StrMap) (hord : ∀ l : StrMap, List.Perm (ord l) l)
    (l : StrMap) (hl : l.length ≤ 1) : ord l = l := by
  cases l with
  | nil => exact List.perm_nil.mp (hord [])
  | cons x t =>
      cases t with
      | nil => exact List.perm_singleton.mp (hord [x])
      | cons y t2 => simp [List.length_cons] at hl

theorem skipEmptyMap_ord (k : String) (ord : StrMap → StrMap) (m : StrMap)
    (h : ord m = m) : skipEmptyMap k ord m = skipEmptyMap k id m := by
  cases m with
  | nil => rfl
  | cons x t => simp [skipEmptyMap, h]

/-- The HashMap fields of a Message and of each of its personalizations hold at most
one entry each. -/
def Message.mapsSmall (m : Message) : Prop :=
  m.sections.length ≤ 1 ∧ m.headers.length ≤ 1 ∧ m.custom_args.length ≤ 1 ∧
    ∀ p ∈ m.personalizations, p.headers.length ≤ 1 ∧ p.substitutions.length ≤ 1 ∧
      p.dynamic_template_data.length ≤ 1 ∧ p.custom_args.length ≤ 1

theorem personalization_toJsonWith_small (ord : StrMap → StrMap)
    (hord : ∀ l : StrMap, List.Perm (ord l) l) (p : Personalization)
    (h1 : p.headers.length ≤ 1) (h2 : p.substitutions.length ≤ 1)
    (h3 : p.dynamic_template_data.length ≤ 1) (h4 : p.custom_args.length ≤ 1) :
    Personalization.toJsonWith ord p = Personalization.toJson p := by
  show Personalization.toJsonWith ord p = Personalization.toJsonWith id p
  unfold Personalization.toJsonWith
  rw [skipEmptyMap_ord _ _ _ (ord_eq_of_small ord hord _ h1),
    skipEmptyMap_ord _ _ _ (ord_eq_of_small ord hord _ h2),
    skipEmptyMap_ord _ _ _ (ord_eq_of_small ord hord _ h3),
    skipEmptyMap_ord _ _ _ (ord_eq_of_small ord hord _ h4)]

theorem message_toJsonWith_small (ord : StrMap → StrMap)
    (hord : ∀ l : StrMap, List.Perm (ord l) l) (m : Message) (hm : m.mapsSmall) :
    Message.toJsonWith ord m = Message.toJson m := by
  obtain ⟨s1, s2, s3, hp⟩ := hm
  show Message.toJsonWith ord m = Message.toJsonWith id m
  unfold Message.toJsonWith
  rw [skipEmptyMap_ord _ _ _ (ord_eq_of_small ord hord _ s1),
    skipEmptyMap_ord _ _ _ (ord_eq_of_small ord hord _ s2),
    skipEmptyMap_ord _ _ _ (ord_eq_of_small ord hord _ s3),
    List.map_congr_left (fun p hp2 => by
      obtain ⟨h1, h2, h3, h4⟩ := hp p hp2
      exact personalization_toJsonWith_small ord hord p h1 h2 h3 h4)]
  rfl

/-- Claim C4 (corrected), counterexample to the claim as stated: the same sequence of
builder calls — new, section("a","1"), section("b","2"), build, to_json — executed in
two runs whose HashMap instances iterate their two entries in different orders (both
orders are permutations of the entries, and std HashMap iteration order is
per-instance and seed-dependent) produces two different JSON texts. -/
theorem c4_determinism_counterexample :
    Json.render (Message.toJsonWith id (runMessage ((ContactBuilder.new "f@x.y").build) "s"
        [MsgOp.section_ "a" "1", MsgOp.section_ "b" "2"]))
      ≠ Json.render (Message.toJsonWith List.reverse
        (runMessage ((ContactBuilder.new "f@x.y").build) "s"
          [MsgOp.section_ "a" "1", MsgOp.section_ "b" "2"])) := by
  decide

/-- Claim C4 (corrected, amended): building the same call sequence twice yields value
graphs with identical functional content, and the to_json texts coincide whenever
the serializer enumerates the mapping entries of both runs in the same order; when
every mapping field of the built message (and of its personalizations) holds at
most one entry, the texts coincide under ANY pair of permutation-consistent
iteration orders — with two or more entries in a map the texts agree only up to the
per-instance iteration order of that map's keys. -/
theorem c4_determinism_amended :
    (∀ f s ops ord, Json.render (Message.toJsonWith ord (runMessage f s ops))
        = Json.render (Message.toJsonWith ord (runMessage f s ops)))
    ∧ (∀ f s ops ord1 ord2, (∀ l : StrMap, List.Perm (ord1 l) l) →
        (∀ l : StrMap, List.Perm (ord2 l) l) → (runMessage f s ops).mapsSmall →
        Json.render (Message.toJsonWith ord1 (runMessage f s ops))
          = Json.render (Message.toJsonWith ord2 (runMessage f s ops))) := by
  refine ⟨fun f s ops ord => rfl, ?_⟩
  intro f s ops ord1 ord2 hord1 hord2 hsmall
  rw [message_toJsonWith_small ord1 hord1 _ hsmall,
    message_toJsonWith_small ord2 hord2 _ hsmall]

/-- Witness for C4 at a concrete input: a run with one section entry serializes to
the same text under the insertion order and under the reversed order. -/
theorem c4_determinism_witness :
    Json.render (Message.toJsonWith id (runMessage ((ContactBuilder.new "w@x.y").build) "w"
        [MsgOp.section_ "a" "1"]))
      = Json.render (Message.toJsonWith List.reverse
        (runMessage ((ContactBuilder.new "w@x.y").build) "w" [MsgOp.section_ "a" "1"])) :=
  c4_determinism_amended.2 ((ContactBuilder.new "w@x.y").build) "w" [MsgOp.section_ "a" "1"]
    id List.reverse (fun l => List.Perm.refl l) (fun l => List.reverse_perm l)
    (by refine ⟨?_, ?_, ?_, ?_⟩ <;> simp [runMessage, Message.mapsSmall, MessageBuilder.new,
      MessageBuilder.build, MessageBuilder.applyOp, MessageBuilder.section_, mapInsert])

theorem foldl_to_append (cs : List Contact) (b : PersonalizationBuilder) :
    ((cs.foldl PersonalizationBuilder.to_ b).personalization).to_
      = b.personalization.to_ ++ cs := by
  induction cs generalizing b with
  | nil => simp
  | cons c rest ih => simp [List.foldl_cons, ih, PersonalizationBuilder.to_]

theorem foldl_cc_append (cs : List Contact) (b : PersonalizationBuilder) :
    ((cs.foldl PersonalizationBuilder.cc b).personalization).cc
      = b.personalization.cc ++ cs := by
  induction cs generalizing b with
  | nil => simp
  | cons c rest ih => simp [List.foldl_cons, ih, PersonalizationBuilder.cc]

theorem foldl_bcc_append (cs : List Contact) (b : PersonalizationBuilder) :
    ((cs.foldl PersonalizationBuilder.bcc b).personalization).bcc
      = b.personalization.bcc ++ cs := by
  induction cs generalizing b with
  | nil => simp
  | cons c rest ih => simp [List.foldl_cons, ih, PersonalizationBuilder.bcc]

theorem foldl_content_append (xs : List Content) (b : MessageBuilder) :
    ((xs.foldl MessageBuilder.content b).message).content = b.message.content ++ xs := by
  induction xs generalizing b with
  | nil => simp
  | cons x rest ih => simp [List.foldl_cons, ih, MessageBuilder.content]

theorem foldl_attachment_append (xs : List Attachment) (b : MessageBuilder) :
    ((xs.foldl MessageBuilder.attachment b).message).attachments
      = b.message.attachments ++ xs := by
  induction xs generalizing b with
  | nil => simp
  | cons x rest ih => simp [List.foldl_cons, ih, MessageBuilder.attachment]

theorem foldl_category_append (xs : List String) (b : MessageBuilder) :
    ((xs.foldl MessageBuilder.category b).message).categories
      = b.message.categories ++ xs := by
  induction xs generalizing b with
  | nil => simp
  | cons x rest ih => simp [List.foldl_cons, ih, MessageBuilder.category]

theorem foldl_personalization_append (xs : List Personalization) (b : MessageBuilder) :
    ((xs.foldl MessageBuilder.personalization b).message).personalizations
      = b.message.personalizations ++ xs := by
  induction xs generalizing b with
  | nil => simp
  | cons x rest ih => simp [List.foldl_cons, ih, MessageBuilder.personalization]

/-- Claim C5: list-valued fields preserve caller-supplied insertion order — any
sequence of to/cc/bcc/content/attachment/category/personalization calls appends in
call order, a to-list [A, B, C] is stored in exactly that order, and the serialized
"to" array lists the contacts in the order added. -/
theorem c5_list_order :
    (∀ cs : List Contact,
        ((cs.foldl PersonalizationBuilder.to_ PersonalizationBuilder.defaultValue).build).to_
          = cs)
    ∧ (∀ (b : PersonalizationBuilder) (cs : List Contact),
        ((cs.foldl PersonalizationBuilder.to_ b).build).to_
        = b.personalization.to_ ++ cs)
    ∧ (∀ (b : PersonalizationBuilder) (cs : List Contact),
        ((cs.foldl PersonalizationBuilder.cc b).build).cc
        = b.personalization.cc ++ cs)
    ∧ (∀ (b : PersonalizationBuilder) (cs : List Contact),
        ((cs.foldl PersonalizationBuilder.bcc b).build).bcc
        = b.personalization.bcc ++ cs)
    ∧ (∀ (b : MessageBuilder) (xs : List Content),
        ((xs.foldl MessageBuilder.content b).build).content
        = b.message.content ++ xs)
    ∧ (∀ (b : MessageBuilder) (xs : List Attachment),
        ((xs.foldl MessageBuilder.attachment b).build).attachments
        = b.message.attachments ++ xs)
    ∧ (∀ (b : MessageBuilder) (xs : List String),
        ((xs.foldl MessageBuilder.category b).build).categories
        = b.message.categories ++ xs)
    ∧ (∀ (b : MessageBuilder) (xs : List Personalization),
        ((xs.foldl MessageBuilder.personalization b).build).personalizations
        = b.message.personalizations ++ xs)
    ∧ (∀ A B C : Contact,
        Personalization.toJson ((((PersonalizationBuilder.defaultValue.to_ A).to_ B).to_ C).build)
          = Json.obj [("to", Json.arr [Contact.toJson A, Contact.toJson B, Contact.toJson C])]) := by
  refine ⟨fun cs => foldl_to_append cs _, fun b cs => foldl_to_append cs b,
    fun b cs => foldl_cc_append cs b, fun b cs => foldl_bcc_append cs b,
    fun b xs => foldl_content_append xs b, fun b xs => foldl_attachment_append xs b,
    fun b xs => foldl_category_append xs b, fun b xs => foldl_personalization_append xs b,
    fun A B C => rfl⟩

theorem singleton_subset_of_mem {x : String} {L : List String} (h : x ∈ L) : [x] ⊆ L := by
  intro a ha
  rw [List.mem_singleton] at ha
  subst ha
  exact h

theorem ite_nil_left_subset {c : Prop} [Decidable c] {x : String} {L : List String}
    (h : x ∈ L) : (if c then [] else [x]) ⊆ L := by
  split
  · simp
  · exact singleton_subset_of_mem h

theorem ite_nil_right_subset {c : Prop} [Decidable c] {x : String} {L : List String}
    (h : x ∈ L) : (if c then [x] else []) ⊆ L := by
  split
  · exact singleton_subset_of_mem h
  · simp

theorem message_objKeys_subset (m : Message) :
    Json.objKeys (Message.toJson m) ⊆ ["personalizations", "from", "reply_to", "subject",
      "content", "attachments", "template_id", "sections", "headers", "categories",
      "custom_args", "send_at", "batch_id", "asm", "ip_pool_name", "mail_settings",
      "tracking_settings"] := by
  rw [message_objKeys]
  unfold messageExpectedKeys
  simp only [List.append_subset]
  repeat' apply And.intro
  all_goals
    first
      | exact ite_nil_left_subset (by decide)
      | exact ite_nil_right_subset (by decide)
      | exact singleton_subset_of_mem (by decide)

theorem personalization_objKeys_subset (p : Personalization) :
    Json.objKeys (Personalization.toJson p) ⊆ ["to", "cc", "bcc", "subject", "headers",
      "substitutions", "dynamic_template_data", "custom_args", "send_at"] := by
  rw [personalization_objKeys]
  unfold personalizationExpectedKeys
  simp only [List.append_subset]
  repeat' apply And.intro
  all_goals
    first
      | exact ite_nil_left_subset (by decide)
      | exact ite_nil_right_subset (by decide)

/-- Claim C6: the mime-type fields of Content and Attachment serialize under the
external key "type" — Content::new("text/plain", "hello") renders with keys type
and value — and this rename is the only one: every other struct serializes each
field under its own snake-case field name. -/
theorem c6_type_rename :
    Json.render (Content.toJson (Content.new "text/plain" "hello"))
        = "\x7b\"type\":\"text/plain\",\"value\":\"hello\"\x7d"
    ∧ (∀ c : Content, Json.objKeys (Content.toJson c) = ["type", "value"])
    ∧ (∀ a : Attachment, Json.objKeys (Attachment.toJson a)
        = ["content", "type", "filename", "disposition", "content_id"])
    ∧ (∀ c : Contact, Json.objKeys (Contact.toJson c) = ["email", "name"])
    ∧ (∀ a : Asm, Json.objKeys (Asm.toJson a) = ["group_id", "groups_to_display"])
    ∧ (∀ s : BccSetting, Json.objKeys (BccSetting.toJson s) = ["enable", "email"])
    ∧ (∀ s : BypassListSetting, Json.objKeys (BypassListSetting.toJson s) = ["enable"])
    ∧ (∀ s : FooterSetting, Json.objKeys (FooterSetting.toJson s)
        = ["enable", "text", "html"])
    ∧ (∀ s : SandboxModeSetting, Json.objKeys (SandboxModeSetting.toJson s) = ["enable"])
    ∧ (∀ s : SpamCheckSetting, Json.objKeys (SpamCheckSetting.toJson s)
        = ["enable", "threshold", "post_to_url"])
    ∧ (∀ s : ClickTrackingSetting, Json.objKeys (ClickTrackingSetting.toJson s)
        = ["enable", "enable_text"])
    ∧ (∀ s : OpenTrackingSetting, Json.objKeys (OpenTrackingSetting.toJson s)
        = ["enable", "substitution_tag"])
    ∧ (∀ s : SubscriptionTrackingSetting, Json.objKeys (SubscriptionTrackingSetting.toJson s)
        = ["enable", "text", "html", "substitution_tag"])
    ∧ (∀ s : GaTrackingSetting, Json.objKeys (GaTrackingSetting.toJson s)
        = ["enable", "utm_source", "utm_medium", "utm_term", "utm_content", "utm_campaign"])
    ∧ (∀ ms : MailSettings, Json.objKeys (MailSettings.toJson ms)
        = ["bcc", "bypass_list_management", "footer", "sandbox_mode", "spam_check"])
    ∧ (∀ ts : TrackingSettings, Json.objKeys (TrackingSettings.toJson ts)
        = ["click_tracking", "open_tracking", "subscription_tracking", "ganalytics"])
    ∧ (∀ m : Message, Json.objKeys (Message.toJson m) ⊆ ["personalizations", "from",
        "reply_to", "subject", "content", "attachments", "template_id", "sections",
        "headers", "categories", "custom_args", "send_at", "batch_id", "asm",
        "ip_pool_name", "mail_settings", "tracking_settings"])
    ∧ (∀ p : Personalization, Json.objKeys (Personalization.toJson p) ⊆ ["to", "cc",
        "bcc", "subject", "headers", "substitutions", "dynamic_template_data",
        "custom_args", "send_at"]) := by
  refine ⟨by decide, fun c => rfl, fun a => rfl, fun c => rfl, fun a => rfl, fun s => rfl,
    fun s => rfl, fun s => rfl, fun s => rfl, fun s => rfl, fun s => rfl, fun s => rfl,
    fun s => rfl, fun s => rfl, fun ms => rfl, fun ts => rfl,
    message_objKeys_subset, personalization_objKeys_subset⟩

/-- Claim C7: serialization failure is the single error path — to_json panics exactly
when serde_json::to_string returns an error, and for the serializer of this crate's
derived impls that never happens, so to_json always returns the rendered text; the
builder layer consists of total functions that accept any input. -/
theorem c7_single_error_path :
    (∀ m : Message, Message.to_json m = PanicOr.ok (Json.render (Message.toJson m)))
    ∧ (∀ (m : Message) (e : String), serdeToString id m ≠ Except.error e)
    ∧ (∀ r : Except String String,
        (∃ msg, expectOr "could not properly serialize into JSON" r = PanicOr.panicked msg)
          ↔ ∃ e, r = Except.error e) := by
  refine ⟨fun m => rfl, fun m e h => Except.noConfusion h, ?_⟩
  intro r
  constructor
  · rintro ⟨msg, hmsg⟩
    cases r with
    | ok v => exact PanicOr.noConfusion hmsg
    | error e => exact ⟨e, rfl⟩
  · rintro ⟨e, rfl⟩
    exact ⟨"could not properly serialize into JSON", rfl⟩

/-- Witness for C7 at concrete inputs: to_json of a minimal built message returns the
rendered text, and expect over an erroring serializer result does panic. -/
theorem c7_single_error_path_witness :
    Message.to_json ((MessageBuilder.new ((ContactBuilder.new "w@e.f").build) "subj").build)
        = PanicOr.ok (Json.render (Message.toJson
            ((MessageBuilder.new ((ContactBuilder.new "w@e.f").build) "subj").build)))
    ∧ (∃ msg, expectOr "could not properly serialize into JSON"
          (Except.error "boom" : Except String String) = PanicOr.panicked msg) :=
  ⟨c7_single_error_path.1 _,
   (c7_single_error_path.2.2 (Except.error "boom")).mpr ⟨"boom", rfl⟩⟩

/-- Claim C10: for every Message constructed through the public builder API, to_json
returns the rendered JSON string and the panic branch of its expect is unreachable,
because serde_json serialization of the graph always succeeds (no map key is a
non-string and no Serialize impl can fail). -/
theorem c10_no_panic :
    ∀ (f : Contact) (s : String) (ops : List MsgOp),
      Message.to_json (runMessage f s ops)
          = PanicOr.ok (Json.render (Message.toJson (runMessage f s ops)))
        ∧ ¬ ∃ msg, Message.to_json (runMessage f s ops) = PanicOr.panicked msg := by
  intro f s ops
  refine ⟨rfl, ?_⟩
  rintro ⟨msg, hmsg⟩
  exact PanicOr.noConfusion hmsg

/-- HashMap::insert can only add the inserted key: every key present before the
insert is still present after it. -/
theorem mapInsert_mem_keys (m : StrMap) (k v k0 : String)
    (h : k0 ∈ m.map Prod.fst) : k0 ∈ (mapInsert m k v).map Prod.fst := by
  unfold mapInsert
  split
  · obtain ⟨p, hp, hpk⟩ := List.mem_map.1 h
    refine List.mem_map.2 ⟨if p.1 == k then (k, v) else p, List.mem_map_of_mem _ hp, ?_⟩
    by_cases hk : p.1 == k
    · simp only [if_pos hk]
      exact ((eq_of_beq hk).symm.trans hpk)
    · simp only [if_neg hk]
      exact hpk
  · rw [List.map_append]
    exact List.mem_append_left _ h

/-- Claim C8 (corrected), counterexample to the claim as stated: calling
PersonalizationBuilder::headers with a whole map replaces the headers field —
starting from a builder whose headers hold the key "a", the call leaves headers
equal to the argument, losing "a"; no single-key insertion into the old map and no
single-element append can produce that result, so the method fits none of the
claim's three mutation modes. -/
theorem c8_frame_counterexample :
    ((PersonalizationBuilder.headers (PersonalizationBuilder.defaultValue.header "a" "1")
        [("b", "2")]).personalization.headers = [("b", "2")])
    ∧ ((PersonalizationBuilder.defaultValue.header "a" "1").personalization.headers
        = [("a", "1")])
    ∧ (¬ ∃ k v, mapInsert [("a", "1")] k v = [("b", "2")])
    ∧ (¬ ∃ e : String × String, [("a", "1")] ++ [e] = [("b", "2")]) := by
  refine ⟨rfl, rfl, ?_, ?_⟩
  · rintro ⟨k, v, hkv⟩
    have ha : ("a" : String) ∈ (mapInsert [("a", "1")] k v).map Prod.fst :=
      mapInsert_mem_keys _ k v _ (by simp)
    rw [hkv] at ha
    simp at ha
  · rintro ⟨e, he⟩
    have hlen := congrArg List.length he
    simp at hlen

/-- Claim C8 (corrected, amended): every builder configuration method mutates
exactly one field of its builder's underlying value node — setting one
scalar/optional field, appending exactly one element, inserting exactly one key,
or (for the three bulk setters personalizations, headers and
dynamic_template_data) replacing one collection field wholesale with the supplied
value — leaves every other field unchanged, forwards its arguments verbatim, and
returns the builder by value for chaining. -/
theorem c8_frame_conditions :
    (∀ (b : ContactBuilder) (n : String),
        (ContactBuilder.name b n).contact = { b.contact with name := some n })
    ∧ (∀ (b : AsmBuilder) (g : Int), (AsmBuilder.group_to_display b g).asm
        = { b.asm with groups_to_display := b.asm.groups_to_display ++ [g] })
    ∧ (∀ (b : AttachmentBuilder) (t : String), (AttachmentBuilder.attachment_type b t).attachment
        = { b.attachment with a_type := some t })
    ∧ (∀ (b : AttachmentBuilder) (d : String), (AttachmentBuilder.disposition b d).attachment
        = { b.attachment with disposition := some d })
    ∧ (∀ (b : AttachmentBuilder) (i : String), (AttachmentBuilder.content_id b i).attachment
        = { b.attachment with content_id := some i })
    ∧ (∀ (b : MailSettingsBuilder) (e : String), (MailSettingsBuilder.bcc b e).settings
        = { b.settings with bcc := some { enable := true, email := e } })
    ∧ (∀ b : MailSettingsBuilder, (MailSettingsBuilder.bypass_list_management b).settings
        = { b.settings with bypass_list_management := some { enable := true } })
    ∧ (∀ (b : MailSettingsBuilder) (t h : Option String), (MailSettingsBuilder.footer b t h).settings
        = { b.settings with footer := some { enable := true, text := t, html := h } })
    ∧ (∀ b : MailSettingsBuilder, (MailSettingsBuilder.sandbox_mode b).settings
        = { b.settings with sandbox_mode := some { enable := true } })
    ∧ (∀ (b : MailSettingsBuilder) (t : Option Int) (u : Option String),
        (MailSettingsBuilder.spam_check b t u).settings
          = { b.settings with spam_check := some { enable := true, threshold := t, post_to_url := u } })
    ∧ (∀ (b : GaTrackingSettingBuilder) (v : String), (GaTrackingSettingBuilder.utm_source b v).setting
        = { b.setting with utm_source := some v })
    ∧ (∀ (b : GaTrackingSettingBuilder) (v : String), (GaTrackingSettingBuilder.utm_medium b v).setting
        = { b.setting with utm_medium := some v })
    ∧ (∀ (b : GaTrackingSettingBuilder) (v : String), (GaTrackingSettingBuilder.utm_term b v).setting
        = { b.setting with utm_term := some v })
    ∧ (∀ (b : GaTrackingSettingBuilder) (v : String), (GaTrackingSettingBuilder.utm_content b v).setting
        = { b.setting with utm_content := some v })
    ∧ (∀ (b : GaTrackingSettingBuilder) (v : String), (GaTrackingSettingBuilder.utm_campaign b v).setting
        = { b.setting with utm_campaign := some v })
    ∧ (∀ (b : TrackingSettingsBuilder) (et : Bool), (TrackingSettingsBuilder.click_tracking b et).settings
        = { b.settings with click_tracking := some { enable := true, enable_text := et } })
    ∧ (∀ (b : TrackingSettingsBuilder) (tag : String), (TrackingSettingsBuilder.open_tracking b tag).settings
        = { b.settings with open_tracking := some { enable := true, substitution_tag := tag } })
    ∧ (∀ (b : TrackingSettingsBuilder) (tag : String) (t h : Option String),
        (TrackingSettingsBuilder.substitution_tag b tag t h).settings
          = { b.settings with subscription_tracking := some { enable := true, text := t, html := h, substitution_tag := tag } })
    ∧ (∀ (b : PersonalizationBuilder) (c : Contact), (PersonalizationBuilder.to_ b c).personalization
        = { b.personalization with to_ := b.personalization.to_ ++ [c] })
    ∧ (∀ (b : PersonalizationBuilder) (c : Contact), (PersonalizationBuilder.cc b c).personalization
        = { b.personalization with cc := b.personalization.cc ++ [c] })
    ∧ (∀ (b : PersonalizationBuilder) (c : Contact), (PersonalizationBuilder.bcc b c).personalization
        = { b.personalization with bcc := b.personalization.bcc ++ [c] })
    ∧ (∀ (b : PersonalizationBuilder) (s : String), (PersonalizationBuilder.subject b s).personalization
        = { b.personalization with subject := some s })
    ∧ (∀ (b : PersonalizationBuilder) (k v : String), (PersonalizationBuilder.header b k v).personalization
        = { b.personalization with headers := mapInsert b.personalization.headers k v })
    ∧ (∀ (b : PersonalizationBuilder) (data : StrMap), (PersonalizationBuilder.headers b data).personalization
        = { b.personalization with headers := data })
    ∧ (∀ (b : PersonalizationBuilder) (k v : String), (PersonalizationBuilder.substitution b k v).personalization
        = { b.personalization with substitutions := mapInsert b.personalization.substitutions k v })
    ∧ (∀ (b : PersonalizationBuilder) (k v : String),
        (PersonalizationBuilder.dynamic_template_datum b k v).personalization
          = { b.personalization with
                dynamic_template_data := mapInsert b.personalization.dynamic_template_data k v })
    ∧ (∀ (b : PersonalizationBuilder) (data : StrMap),
        (PersonalizationBuilder.dynamic_template_data b data).personalization
          = { b.personalization with dynamic_template_data := data })
    ∧ (∀ (b : PersonalizationBuilder) (k v : String), (PersonalizationBuilder.custom_arg b k v).personalization
        = { b.personalization with custom_args := mapInsert b.personalization.custom_args k v })
    ∧ (∀ (b : PersonalizationBuilder) (t : Int), (PersonalizationBuilder.send_at b t).personalization
        = { b.personalization with send_at := some t })
    ∧ (∀ (b : MessageBuilder) (p : Personalization), (MessageBuilder.personalization b p).message
        = { b.message with personalizations := b.message.personalizations ++ [p] })
    ∧ (∀ (b : MessageBuilder) (ps : List Personalization), (MessageBuilder.personalizations b ps).message
        = { b.message with personalizations := ps })
    ∧ (∀ (b : MessageBuilder) (c : Contact), (MessageBuilder.reply_to b c).message
        = { b.message with reply_to := some c })
    ∧ (∀ (b : MessageBuilder) (c : Content), (MessageBuilder.content b c).message
        = { b.message with content := b.message.content ++ [c] })
    ∧ (∀ (b : MessageBuilder) (a : Attachment), (MessageBuilder.attachment b a).message
        = { b.message with attachments := b.message.attachments ++ [a] })
    ∧ (∀ (b : MessageBuilder) (i : String), (MessageBuilder.template_id b i).message
        = { b.message with template_id := some i })
    ∧ (∀ (b : MessageBuilder) (k v : String), (MessageBuilder.section_ b k v).message
        = { b.message with sections := mapInsert b.message.sections k v })
    ∧ (∀ (b : MessageBuilder) (k v : String), (MessageBuilder.header b k v).message
        = { b.message with headers := mapInsert b.message.headers k v })
    ∧ (∀ (b : MessageBuilder) (c : String), (MessageBuilder.category b c).message
        = { b.message with categories := b.message.categories ++ [c] })
    ∧ (∀ (b : MessageBuilder) (k v : String), (MessageBuilder.custom_arg b k v).message
        = { b.message with custom_args := mapInsert b.message.custom_args k v })
    ∧ (∀ (b : MessageBuilder) (t : Int), (MessageBuilder.send_at b t).message
        = { b.message with send_at := some t })
    ∧ (∀ (b : MessageBuilder) (i : String), (MessageBuilder.batch_id b i).message
        = { b.message with batch_id := some i })
    ∧ (∀ (b : MessageBuilder) (a : Asm), (MessageBuilder.asm b a).message
        = { b.message with asm := some a })
    ∧ (∀ (b : MessageBuilder) (n : String), (MessageBuilder.ip_pool_name b n).message
        = { b.message with ip_pool_name := some n })
    ∧ (∀ (b : MessageBuilder) (st : MailSettings), (MessageBuilder.mail_settings b st).message
        = { b.message with mail_settings := some st })
    ∧ (∀ (b : MessageBuilder) (st : TrackingSettings), (MessageBuilder.tracking_settings b st).message
        = { b.message with tracking_settings := some st }) := by
  repeat' apply And.intro
  all_goals intros
  all_goals rfl

/-- Witness for C6 at a concrete input: the serialized keys of a freshly built
minimal message land inside the canonical snake-case key set. -/
theorem c6_type_rename_witness :
    ("from" : String) ∈ (["personalizations", "from", "reply_to", "subject", "content",
      "attachments", "template_id", "sections", "headers", "categories", "custom_args",
      "send_at", "batch_id", "asm", "ip_pool_name", "mail_settings",
      "tracking_settings"] : List String) :=
  (c6_type_rename.2.2.2.2.2.2.2.2.2.2.2.2.2.2.2.2.1
    ((MessageBuilder.new ((ContactBuilder.new "q@r.s").build) "q").build)) (by decide)

/-- Witness for C10 at a concrete input: to_json of a message built with one
template_id call returns the rendered text, not a panic. -/
theorem c10_no_panic_witness :
    Message.to_json (runMessage ((ContactBuilder.new "q@r.s").build) "q"
        [MsgOp.template_id "T"])
      = PanicOr.ok (Json.render (Message.toJson
          (runMessage ((ContactBuilder.new "q@r.s").build) "q" [MsgOp.template_id "T"]))) :=
  (c10_no_panic ((ContactBuilder.new "q@r.s").build) "q" [MsgOp.template_id "T"]).1

end Sendgrid
